import Mathlib

/-!
Verification of the binding dispatch and selection-context engine of
`kubectl-select` (a fuzzy-selection front-end for `kubectl`).

The development shallowly embeds the three source files:
* `src/bindings.rs` — the `Binding` trait and its nine static implementors
  plus the dynamic per-column binding (`Column`);
* `src/kubectl.rs` — the `kubectl` command builder and the per-row preview;
* `src/main.rs` — registration (`add_binding`, `setup_bindings`), the
  dynamic per-column registration in `kubectl_get`, context construction and
  dispatch in `handle_output`, and the top-level `run`/`main` flow.

External process execution, the clipboard and the terminal are modelled by a
`World` record of oracles; the effects an action performs (commands spawned,
clipboard writes) are recorded in a `RunEffect` alongside the optional output
string that the Rust `Binding::run` returns.
-/

/-- Helper for `splitWhitespace`: walks the character list, accumulating the
current (reversed) token in `acc`; whitespace flushes the token, so no empty
tokens are produced — the semantics of Rust `str::split_whitespace`. -/
def splitWhitespaceAux : List Char → List Char → List String
  | [], acc => if acc = [] then [] else [⟨acc.reverse⟩]
  | c :: cs, acc =>
    if c.isWhitespace then
      if acc = [] then splitWhitespaceAux cs []
      else ⟨acc.reverse⟩ :: splitWhitespaceAux cs []
    else splitWhitespaceAux cs (c :: acc)

/-- Rust `str::split_whitespace`, collected into a list: splits on runs of
whitespace and never yields an empty token. -/
def splitWhitespace (s : String) : List String :=
  splitWhitespaceAux s.data []

/-- One external `kubectl` invocation as assembled by `kubectl_base_cmd` in
`src/kubectl.rs` (`kubectl <command> <resource>? --namespace <nspace>?`)
plus the extra arguments the individual bindings append. -/
structure KubectlCall where
  nspace : Option String
  command : String
  resource : Option String
  args : List String
deriving DecidableEq, Repr

/-- Model of `kubectl_base_cmd` from `src/kubectl.rs`: the builder seeded with the
command and optional resource and namespace, no extra args yet. -/
def kubectl_base_cmd (nspace : Option String) (command : String)
    (resource : Option String) : KubectlCall :=
  { nspace := nspace, command := command, resource := resource, args := [] }

/-- Model of `Exec::arg`: append one argument to the builder. -/
def KubectlCall.arg (c : KubectlCall) (a : String) : KubectlCall :=
  { c with args := c.args ++ [a] }

/-- Model of `Exec::args`: append a list of arguments to the builder. -/
def KubectlCall.addArgs (c : KubectlCall) (as : List String) : KubectlCall :=
  { c with args := c.args ++ as }

/-- The external collaborators: `exec` returns the captured stdout of a
spawned `kubectl` process (`none` = spawn/capture failure), `ttyOk` models
whether `File::open("/dev/stdout")` succeeds for `Edit`, and `clipboardOk`
whether `ClipboardProvider::new()` succeeds for `Copy`. -/
structure World where
  exec : KubectlCall → Option String
  ttyOk : Bool
  clipboardOk : Bool

/-- What one `Binding::run` produced: the `Option<String>` return value,
the external `kubectl` processes it spawned, and the clipboard writes it
attempted. -/
structure RunEffect where
  output : Option String
  calls : List KubectlCall
  clipboard : List String
deriving DecidableEq, Repr

/-- The `BindingContext` struct from `src/bindings.rs`: namespace, resource, the
selected names and the per-row column split. -/
structure BindingContext where
  nspace : Option String
  resource : String
  names : List String
  columns : List (List String)
deriving DecidableEq, Repr

/-- Model of `BindingContext::accepts_pods` from `src/bindings.rs`. -/
def accepts_pods : List String := ["pods", "pod", "po"]

/-- Model of `BindingContext::accepts_nodes` from `src/bindings.rs`. -/
def accepts_nodes : List String := ["nodes", "node", "no"]

/-- The closed set of `Binding` implementors in `src/bindings.rs`: the nine
static ones registered in `setup_bindings` and the dynamic `Column` binding
created per header column in `kubectl_get`. -/
inductive Binding where
  | Names
  | Json
  | Yaml
  | Describe
  | Edit
  | Logs
  | Copy
  | Cordon
  | Uncordon
  | Column (name : String) (index : Nat)
deriving DecidableEq, Repr

/-- The `Binding::key` method of each implementor. -/
def Binding.key : Binding → String
  | .Names => ""
  | .Json => "ctrl-j"
  | .Yaml => "ctrl-y"
  | .Describe => "ctrl-d"
  | .Edit => "ctrl-e"
  | .Logs => "ctrl-l"
  | .Copy => "ctrl-space"
  | .Cordon => "ctrl-k"
  | .Uncordon => "ctrl-u"
  | .Column _ index => "f" ++ toString index

/-- The `Binding::description` method of each implementor. -/
def Binding.description : Binding → String
  | .Names => "Names"
  | .Json => "Json"
  | .Yaml => "Yaml"
  | .Describe => "Describe"
  | .Edit => "Edit"
  | .Logs => "Logs"
  | .Copy => "Copy"
  | .Cordon => "Cordon"
  | .Uncordon => "Uncordon"
  | .Column name index => toString index ++ ":" ++ name

/-- The `Binding::accepts` method of each implementor: the resource aliases it works
for, empty meaning all resource types. -/
def Binding.accepts : Binding → List String
  | .Logs => accepts_pods
  | .Cordon => accepts_nodes
  | .Uncordon => accepts_nodes
  | _ => []

/-- The default `Binding::runs_for` method from `src/bindings.rs`:
`accepts.is_empty() || accepts.iter().any(|r| r == resource)`. -/
def Binding.runs_for (b : Binding) (resource : String) : Bool :=
  let accepts := b.accepts
  accepts.isEmpty || accepts.any (fun r => r == resource)

/-- The default `Binding::preview` method from `src/bindings.rs`: the
description and the key label (the literal `enter` when the key is the
reserved empty string), wrapped in ANSI colour codes around a tab. -/
def Binding.preview (b : Binding) : String :=
  let key_repr := if b.key == "" then "enter" else b.key
  "\x1b[31m" ++ b.description ++ "\t\x1b[33m" ++ key_repr ++ "\x1b[0m"

/-- The `Binding::run` method of each implementor, with external effects recorded.
Every `.ok()?` in the Rust becomes propagation of the oracle's `none`. -/
def Binding.run (b : Binding) (w : World) (ctx : BindingContext) : RunEffect :=
  match b with
  | .Names =>
      { output := some (String.intercalate "\n" ctx.names), calls := [], clipboard := [] }
  | .Json =>
      let call := (((kubectl_base_cmd ctx.nspace "get" (some ctx.resource)).arg
        "--output").arg "json").addArgs ctx.names
      { output := w.exec call, calls := [call], clipboard := [] }
  | .Yaml =>
      let call := (((kubectl_base_cmd ctx.nspace "get" (some ctx.resource)).arg
        "--output").arg "yaml").addArgs ctx.names
      { output := w.exec call, calls := [call], clipboard := [] }
  | .Describe =>
      let call := (kubectl_base_cmd ctx.nspace "describe" (some ctx.resource)).addArgs ctx.names
      { output := w.exec call, calls := [call], clipboard := [] }
  | .Edit =>
      if w.ttyOk then
        let call := (kubectl_base_cmd ctx.nspace "edit" (some ctx.resource)).addArgs ctx.names
        { output := w.exec call, calls := [call], clipboard := [] }
      else
        { output := none, calls := [], clipboard := [] }
  | .Logs =>
      if ctx.names.length > 1 then
        { output := some "Cannot get logs of more than one pod at a time",
          calls := [], clipboard := [] }
      else
        let call := (((kubectl_base_cmd ctx.nspace "logs" none).arg
          "--follow").arg "--all-containers").addArgs ctx.names
        { output := none, calls := [call], clipboard := [] }
  | .Copy =>
      if w.clipboardOk then
        { output := none, calls := [],
          clipboard := [String.intercalate "\n" ctx.names] }
      else
        { output := none, calls := [], clipboard := [] }
  | .Cordon =>
      let call := (kubectl_base_cmd ctx.nspace "cordon" none).addArgs ctx.names
      { output := w.exec call, calls := [call], clipboard := [] }
  | .Uncordon =>
      let call := (kubectl_base_cmd ctx.nspace "uncordon" none).addArgs ctx.names
      { output := w.exec call, calls := [call], clipboard := [] }
  | .Column _ index =>
      { output := some (String.intercalate "\n"
          (ctx.columns.filterMap (fun c => c.get? index))),
        calls := [], clipboard := [] }

/-- The binding registry of `src/main.rs`: a map from trigger key to
binding, modelled as an association list in insertion order. -/
abbrev Registry : Type := List (String × Binding)

/-- The set of bound trigger keys of a registry. -/
def registryKeys (reg : Registry) : List String :=
  reg.map Prod.fst

/-- Lookup (`HashMap::get`) on the registry. -/
def lookupBinding (reg : Registry) (key : String) : Option Binding :=
  (reg.find? (fun p => p.1 == key)).map Prod.snd

/-- Model of `Opts::add_binding` from `src/main.rs`: panics (modelled as
`Except.error`) when the key is already bound, otherwise inserts. -/
def addBinding (reg : Registry) (b : Binding) : Except String Registry :=
  if (registryKeys reg).contains b.key then
    Except.error ("key " ++ b.key ++ " already bound")
  else
    Except.ok (reg ++ [(b.key, b)])

/-- Register a list of bindings in order, stopping at the first duplicate. -/
def registerAll (reg : Registry) : List Binding → Except String Registry
  | [] => Except.ok reg
  | b :: rest =>
    match addBinding reg b with
    | Except.error e => Except.error e
    | Except.ok reg' => registerAll reg' rest

/-- The nine static bindings, in the order `Opts::setup_bindings` adds them. -/
def staticBindings : List Binding :=
  [.Names, .Json, .Yaml, .Describe, .Edit, .Logs, .Cordon, .Uncordon, .Copy]

/-- Model of `Opts::setup_bindings` from `src/main.rs`. -/
def setupBindings (reg : Registry) : Except String Registry :=
  registerAll reg staticBindings

/-- The registry state after startup registration succeeds. -/
def startupRegistry : Registry :=
  ((setupBindings ([] : Registry)).toOption).getD ([] : Registry)

/-- The dynamic per-column bindings created in `Opts::kubectl_get`: one
`Column` per header column beyond the first, capped via
`max_columns = header_columns.len().min(19)` and
`iter().skip(1).take(max_columns).enumerate()`, with index `i + 1`. -/
def dynamicColumns (header : String) : List Binding :=
  let header_columns := splitWhitespace header
  let max_columns := min header_columns.length 19
  (((header_columns.drop 1).take max_columns).enum).map
    (fun p => Binding.Column p.2 (p.1 + 1))

/-- The selection context construction at the top of `Opts::handle_output`:
rows are split on whitespace into columns, and the names are the first
tokens of the rows that have one (`filter_map(|c| c.first())`). -/
def buildContext (nspace : Option String) (resource : String)
    (selected : List String) : BindingContext :=
  let columns := selected.map splitWhitespace
  let names := columns.filterMap List.head?
  { nspace := nspace, resource := resource, names := names, columns := columns }

/-- Model of `Opts::handle_output` from `src/main.rs`: build the context, look the
trigger up, gate on `runs_for`, and run the binding. -/
def handleOutput (reg : Registry) (w : World) (nspace : Option String)
    (resource key : String) (selected : List String) : RunEffect :=
  let ctx := buildContext nspace resource selected
  match lookupBinding reg key with
  | none => { output := none, calls := [], clipboard := [] }
  | some b =>
    if !(b.runs_for resource) then
      { output := some (b.description ++ " does not work for resource type " ++ resource),
        calls := [], clipboard := [] }
    else
      b.run w ctx

/-- The tail of `Opts::run`: the picker either aborts (no accept key) or
returns an accept key together with the selected rows, and the output is
`key.map(|k| self.handle_output(k, items)).flatten()`. -/
def runSelect (reg : Registry) (w : World) (nspace : Option String)
    (resource : String) (picked : Option (String × List String)) : RunEffect :=
  match picked with
  | none => { output := none, calls := [], clipboard := [] }
  | some (key, selected) => handleOutput reg w nspace resource key selected

/-- Model of `main` from `src/main.rs`: print the final output if there is one,
nothing otherwise. -/
def mainPrinted (e : RunEffect) : String :=
  match e.output with
  | some s => s
  | none => ""

/-- The synthetic always-available preview line injected in
`KubectlItem::preview` in `src/kubectl.rs`. -/
def togglePreview : String :=
  "\x1b[31mToggle Preview\t\x1b[33mctrl-p\x1b[0m"

/-- The preview lines of `KubectlItem::preview` in `src/kubectl.rs`, before
the tab-alignment pass: the previews of the registered bindings that run
for this resource, chained with the always-available toggle line, sorted. -/
def itemPreviewLines (reg : Registry) (resource : String) : List String :=
  let always_keys : List String := [togglePreview]
  (((reg.map Prod.snd).filter
      (fun b => b.runs_for resource)).map Binding.preview ++ always_keys).mergeSort
    (fun a b => decide (a ≤ b))

/-- A world whose collaborators all fail; used to instantiate theorems at
concrete inputs. -/
def silentWorld : World :=
  { exec := fun _ => none, ttyOk := false, clipboardOk := false }

/-- On a list of nonempty lists, `filterMap List.head?` keeps one element
per input list: same length, and pointwise it returns the head. -/
theorem filterMap_head?_of_ne_nil : ∀ (cols : List (List String)),
    (∀ c ∈ cols, c ≠ []) →
    (cols.filterMap List.head?).length = cols.length ∧
      ∀ i : Nat, (cols.filterMap List.head?)[i]? = cols[i]?.bind List.head?
  | [], _ => ⟨rfl, fun i => by simp⟩
  | c :: cs, h => by
    obtain ⟨a, t, rfl⟩ : ∃ a t, c = a :: t := by
      cases c with
      | nil => exact absurd rfl (h _ (by simp))
      | cons a t => exact ⟨a, t, rfl⟩
    have ih := filterMap_head?_of_ne_nil cs (fun x hx => h x (by simp [hx]))
    refine ⟨by simpa [List.filterMap_cons] using ih.1, fun i => ?_⟩
    cases i with
    | zero => simp [List.filterMap_cons]
    | succ n => simpa [List.filterMap_cons] using ih.2 n

/-- C1 (amended): the Selection Context built by `handle_output` from `N`
selected rows always has `columns.length = N` with `columns[i]` the
whitespace-split of row `i`; and when every selected row has at least one
whitespace token, `names.length = N` as well and `names[i]` is the first
token of row `i` (the head of `columns[i]`). -/
theorem context_roundtrip (ns : Option String) (res : String)
    (items : List String) (h : ∀ r ∈ items, splitWhitespace r ≠ []) :
    (buildContext ns res items).columns = items.map splitWhitespace ∧
    (buildContext ns res items).columns.length = items.length ∧
    (buildContext ns res items).names.length = items.length ∧
    ∀ i : Nat, (buildContext ns res items).names[i]? =
      ((buildContext ns res items).columns[i]?).bind List.head? := by
  have hcols : ∀ c ∈ items.map splitWhitespace, c ≠ [] := by
    intro c hc
    obtain ⟨r, hr, rfl⟩ := List.mem_map.1 hc
    exact h r hr
  have main := filterMap_head?_of_ne_nil (items.map splitWhitespace) hcols
  refine ⟨rfl, by simp [buildContext], ?_, ?_⟩
  · simpa [buildContext] using main.1
  · intro i
    simpa [buildContext] using main.2 i

/-- Witness for C1 at the spec's example rows, which both have tokens. -/
theorem context_roundtrip_witness :
    (buildContext none "pod" ["a Running 1d", "b Pending 2d"]).names.length = 2 ∧
    (buildContext none "pod" ["a Running 1d", "b Pending 2d"]).names[0]? =
      ((buildContext none "pod" ["a Running 1d", "b Pending 2d"]).columns[0]?).bind List.head? := by
  have h := context_roundtrip none "pod" ["a Running 1d", "b Pending 2d"] (by decide)
  exact ⟨h.2.2.1, h.2.2.2 0⟩

/-- C1 counterexample: a selected row with no whitespace token (the empty
row) is dropped from `names` but kept in `columns`, so the claimed
`names.length = columns.length = N` fails for `N = 1`. -/
theorem context_roundtrip_counterexample :
    (buildContext none "pod" [""]).columns.length = 1 ∧
    (buildContext none "pod" [""]).names.length = 0 := by decide

/-- C3: `runs_for` (the code's `appliesTo`) accepts every resource type
when the accepted list is empty, and otherwise accepts exactly the members
of the accepted list. -/
theorem runs_for_spec (b : Binding) (r : String) :
    b.runs_for r = true ↔ (b.accepts = [] ∨ r ∈ b.accepts) := by
  simp only [Binding.runs_for, Bool.or_eq_true, List.isEmpty_iff,
    List.any_eq_true, beq_iff_eq]
  constructor
  · rintro (he | ⟨x, hx, rfl⟩)
    · exact Or.inl he
    · exact Or.inr hx
  · rintro (he | hm)
    · exact Or.inl he
    · exact Or.inr ⟨r, hm, rfl⟩

/-- C5: the per-column binding with index `k` returns, for every selected
row in order, the row's value at column index `k` — rows with at most `k`
columns are skipped — joined by newline, with no external call; on the
spec's example listing the Names binding yields `a\nb` and the synthesized
second-column binding yields `Running\nPending`. -/
theorem column_binding_run :
    (∀ (w : World) (ctx : BindingContext) (name : String) (k : Nat),
      Binding.run (Binding.Column name k) w ctx =
        { output := some (String.intercalate "\n"
            (ctx.columns.filterMap (fun c => c.get? k))),
          calls := [], clipboard := [] }) ∧
    Binding.run Binding.Names silentWorld
        (buildContext none "pod" ["a Running 1d", "b Pending 2d"]) =
      { output := some "a\nb", calls := [], clipboard := [] } ∧
    Binding.run (Binding.Column "STATUS" 1) silentWorld
        (buildContext none "pod" ["a Running 1d", "b Pending 2d"]) =
      { output := some "Running\nPending", calls := [], clipboard := [] } :=
  ⟨fun _ _ _ _ => rfl, rfl, rfl⟩

/-- C6: the Logs binding dispatched with more than one selected name
returns the fixed cardinality message and spawns no external process. -/
theorem logs_refuses_multiple (w : World) (ctx : BindingContext)
    (h : ctx.names.length > 1) :
    Binding.run Binding.Logs w ctx =
      { output := some "Cannot get logs of more than one pod at a time",
        calls := [], clipboard := [] } := by
  simp [Binding.run, h]

/-- Witness for C6 at a two-row selection. -/
theorem logs_refuses_multiple_witness :
    Binding.run Binding.Logs silentWorld (buildContext none "pod" ["a", "b"]) =
      { output := some "Cannot get logs of more than one pod at a time",
        calls := [], clipboard := [] } :=
  logs_refuses_multiple silentWorld (buildContext none "pod" ["a", "b"]) (by decide)

/-- C10: with zero selected names the Logs binding does not refuse; it
spawns the external `kubectl logs --follow --all-containers` call with no
identifier arguments and returns no output (failures included, since every
failure path also yields `none`). -/
theorem logs_empty_selection (w : World) (ctx : BindingContext)
    (h : ctx.names = []) :
    Binding.run Binding.Logs w ctx =
      { output := none,
        calls := [{ nspace := ctx.nspace, command := "logs", resource := none,
                    args := ["--follow", "--all-containers"] }],
        clipboard := [] } := by
  simp [Binding.run, h, kubectl_base_cmd, KubectlCall.arg, KubectlCall.addArgs]

/-- Witness for C10 at an empty selection. -/
theorem logs_empty_selection_witness :
    Binding.run Binding.Logs silentWorld (buildContext none "pod" []) =
      { output := none,
        calls := [{ nspace := none, command := "logs", resource := none,
                    args := ["--follow", "--all-containers"] }],
        clipboard := [] } :=
  logs_empty_selection silentWorld (buildContext none "pod" []) rfl

/-- C7: when the trigger resolves to a binding whose `runs_for` rejects the
resource type, dispatch returns the message naming the binding's
description and the resource type, and neither spawns a process nor writes
the clipboard. -/
theorem gating_message (reg : Registry) (w : World) (ns : Option String)
    (res key : String) (items : List String) (b : Binding)
    (hb : lookupBinding reg key = some b) (hr : b.runs_for res = false) :
    handleOutput reg w ns res key items =
      { output := some (b.description ++ " does not work for resource type " ++ res),
        calls := [], clipboard := [] } := by
  simp [handleOutput, hb, hr]

/-- Witness for C7: Cordon dispatched against resource type pod. -/
theorem gating_message_witness :
    handleOutput startupRegistry silentWorld none "pod" "ctrl-k" [] =
      { output := some "Cordon does not work for resource type pod",
        calls := [], clipboard := [] } :=
  gating_message startupRegistry silentWorld none "pod" "ctrl-k" []
    Binding.Cordon rfl rfl

/-- C2: parsing the listing header registers exactly
`min(headerColumnCount - 1, 19)` per-column bindings — one for each header
column beyond the first up to the 19-key cap — where the i-th (0-based)
registered binding is the `Column` binding for header token `i+1` carrying
1-based index `i+1`, and a `Column` binding's synthesized trigger is
`"f" ++ index`. -/
theorem dynamic_column_bindings (header : String) :
    (dynamicColumns header).length = min ((splitWhitespace header).length - 1) 19 ∧
    (∀ i : Nat, (dynamicColumns header)[i]? =
        if i < min ((splitWhitespace header).length - 1) 19 then
          ((splitWhitespace header)[i+1]?).map (fun n => Binding.Column n (i+1))
        else none) ∧
    (∀ (n : String) (i : Nat), (Binding.Column n i).key = "f" ++ toString i) := by
  refine ⟨?_, ?_, fun n i => rfl⟩
  · simp only [dynamicColumns, List.enum_length, List.length_map, List.length_take,
      List.length_drop]
    omega
  · intro i
    simp only [dynamicColumns, List.getElem?_map, List.getElem?_enum, List.getElem?_take,
      List.getElem?_drop]
    by_cases h1 : i < min ((splitWhitespace header).length - 1) 19
    · have h2 : i < min (splitWhitespace header).length 19 := by omega
      simp only [h1, h2, if_true]
      rw [Nat.add_comm 1 i]
      cases (splitWhitespace header)[i + 1]? <;> rfl
    · by_cases h2 : i < min (splitWhitespace header).length 19
      · have h3 : (splitWhitespace header).length ≤ 1 + i := by omega
        simp [h1, h2, List.getElem?_eq_none h3]
      · simp [h1, h2]

/-- C4: `add_binding` fails fatally (with the `already bound` panic
message) exactly when the trigger is already present, any sequence of
successful registrations — static startup or dynamic per-column — preserves
pairwise-distinct trigger keys, and the startup registration itself
succeeds with pairwise-distinct keys. -/
theorem registry_unique_triggers :
    (∀ (reg : Registry) (b : Binding), b.key ∈ registryKeys reg →
      addBinding reg b = Except.error ("key " ++ b.key ++ " already bound")) ∧
    (∀ (bs : List Binding) (reg reg' : Registry),
      registerAll reg bs = Except.ok reg' →
      (registryKeys reg).Nodup → (registryKeys reg').Nodup) ∧
    (setupBindings ([] : Registry) = Except.ok startupRegistry ∧
      (registryKeys startupRegistry).Nodup) := by
  have hadd : ∀ (reg reg' : Registry) (b : Binding),
      addBinding reg b = Except.ok reg' →
      (registryKeys reg).Nodup → (registryKeys reg').Nodup := by
    intro reg reg' b h hnd
    unfold addBinding at h
    split at h
    · exact absurd h (by simp)
    · rename_i hc
      have hmem : b.key ∉ registryKeys reg := by simpa using hc
      cases h
      have hkeys : registryKeys (reg ++ [(b.key, b)]) = registryKeys reg ++ [b.key] := by
        simp [registryKeys]
      rw [hkeys, List.nodup_append]
      refine ⟨hnd, List.nodup_singleton _, fun x hx hx2 => ?_⟩
      rw [List.mem_singleton] at hx2
      exact hmem (hx2 ▸ hx)
  refine ⟨?_, ?_, rfl, by decide⟩
  · intro reg b hmem
    unfold addBinding
    split
    · rfl
    · rename_i hc
      exact absurd hmem (by simpa using hc)
  · intro bs
    induction bs with
    | nil =>
      intro reg reg' h hnd
      simp only [registerAll, Except.ok.injEq] at h
      subst h
      exact hnd
    | cons b rest ih =>
      intro reg reg' h hnd
      unfold registerAll at h
      cases hab : addBinding reg b with
      | error e => rw [hab] at h; cases h
      | ok reg1 =>
        rw [hab] at h
        exact ih reg1 reg' h (hadd reg reg1 b hab hnd)

/-- Witness for C4: re-registering Names (trigger already bound) fails
with the panic message, and the startup registry's keys are distinct. -/
theorem registry_unique_triggers_witness :
    addBinding startupRegistry Binding.Names = Except.error "key  already bound" ∧
    (registryKeys startupRegistry).Nodup :=
  ⟨registry_unique_triggers.1 startupRegistry Binding.Names (by decide),
   registry_unique_triggers.2.1 staticBindings ([] : Registry) startupRegistry rfl (by decide)⟩

/-- C8: the per-row preview lines are lexicographically sorted, are a
permutation of the previews of exactly the registered bindings that run for
the resource type plus the synthetic toggle-preview line, always contain
that toggle line, and each binding's preview pairs its description with a
key label that is the literal `enter` when the trigger is the reserved
empty string. -/
theorem preview_spec (reg : Registry) (res : String) :
    List.Sorted (· ≤ ·) (itemPreviewLines reg res) ∧
    (itemPreviewLines reg res).Perm
      (((reg.map Prod.snd).filter (fun b => b.runs_for res)).map Binding.preview
        ++ [togglePreview]) ∧
    togglePreview ∈ itemPreviewLines reg res ∧
    ∀ b : Binding, Binding.preview b =
      "\x1b[31m" ++ b.description ++ "\t\x1b[33m" ++
        (if b.key == "" then "enter" else b.key) ++ "\x1b[0m" := by
  have hperm : (itemPreviewLines reg res).Perm
      (((reg.map Prod.snd).filter (fun b => b.runs_for res)).map Binding.preview
        ++ [togglePreview]) :=
    List.mergeSort_perm _ _
  refine ⟨List.sorted_mergeSort' _, hperm, hperm.mem_iff.2 (by simp), fun b => rfl⟩

/-- C9: an aborted picker (no accept key) produces no output and no
external effect, and so does a returned trigger that is not present in the
registry; in both cases `main` prints nothing. -/
theorem abort_unknown_silent (reg : Registry) (w : World) (ns : Option String) (res : String) :
    (runSelect reg w ns res none = { output := none, calls := [], clipboard := [] } ∧
      mainPrinted (runSelect reg w ns res none) = "") ∧
    ∀ (key : String) (items : List String), lookupBinding reg key = none →
      runSelect reg w ns res (some (key, items)) =
        { output := none, calls := [], clipboard := [] } ∧
      mainPrinted (runSelect reg w ns res (some (key, items))) = "" := by
  refine ⟨⟨rfl, rfl⟩, fun key items h => ?_⟩
  have hrun : runSelect reg w ns res (some (key, items)) =
      { output := none, calls := [], clipboard := [] } := by
    simp [runSelect, handleOutput, h]
  exact ⟨hrun, by simp [hrun, mainPrinted]⟩

/-- Witness for C9 at the startup registry with an unbound trigger. -/
theorem abort_unknown_silent_witness :
    runSelect startupRegistry silentWorld none "pod" none =
      { output := none, calls := [], clipboard := [] } ∧
    runSelect startupRegistry silentWorld none "pod" (some ("ctrl-z", ["a"])) =
      { output := none, calls := [], clipboard := [] } :=
  ⟨(abort_unknown_silent startupRegistry silentWorld none "pod").1.1,
   ((abort_unknown_silent startupRegistry silentWorld none "pod").2 "ctrl-z" ["a"] rfl).1⟩
